import Mathlib

/-!
Verification of the viewport estimator of the ribbit-network dashboard
(`app.py`, function
`get_plotting_zoom_level_and_center_coordinates_from_lonlat_tuples`).

The function receives two optional sequences (pandas series of floats) of
longitudes and latitudes.  We model the numeric values as rationals and the
IEEE NaN that pandas/numpy produce on empty reductions as `Option.none`
propagated through arithmetic:

* `latitudes.max()` / `.min()` on an empty series yield NaN → `none`;
* `np.mean` of an empty series yields NaN → `none`;
* `NaN - NaN`, `NaN * NaN` yield NaN → `none` propagation;
* `np.interp` of a NaN x-value yields NaN → `Option.map`.

`np.interp` itself is modelled by `npInterp`, following numpy's semantics for
a non-decreasing `xp`: values left of the first knot clamp to the first
`fp`-value, values at or right of the last knot clamp to the last `fp`-value,
and in between the segment `[xp i, xp (i+1))` interpolates linearly (with the
last matching knot winning on duplicated `xp`-values, as numpy's binary
search does).
-/

namespace RibbitDashboard

/-- NaN-propagating subtraction: `none` models IEEE NaN. -/
def nanSub : Option ℚ → Option ℚ → Option ℚ
  | some a, some b => some (a - b)
  | _, _ => none

/-- NaN-propagating multiplication: `none` models IEEE NaN. -/
def nanMul : Option ℚ → Option ℚ → Option ℚ
  | some a, some b => some (a * b)
  | _, _ => none

/-- Maximum of a nonempty list, left fold as the pandas reduction; the
value is irrelevant (and set to 0) for the empty list, where pandas
returns NaN (see `seriesMax`). -/
def listMax : List ℚ → ℚ
  | [] => 0
  | x :: xs => List.foldl max x xs

/-- Minimum of a nonempty list, left fold as the pandas reduction. -/
def listMin : List ℚ → ℚ
  | [] => 0
  | x :: xs => List.foldl min x xs

/-- Model of `series.max()`: NaN (`none`) on an empty series. -/
def seriesMax : List ℚ → Option ℚ
  | [] => none
  | x :: xs => some (listMax (x :: xs))

/-- Model of `series.min()`: NaN (`none`) on an empty series. -/
def seriesMin : List ℚ → Option ℚ
  | [] => none
  | x :: xs => some (listMin (x :: xs))

/-- Model of `np.mean`: arithmetic mean (sum divided by length); NaN
(`none`) on empty input. -/
def npMean (l : List ℚ) : Option ℚ :=
  if l.isEmpty then none else some (l.sum / l.length)

/-- Interpolation walk of `np.interp` along the knot list, under the
invariant that `x` is at or right of the knot carried in the accumulator:
if `x` lies left of the next knot the current segment interpolates
linearly, otherwise the walk advances; past the last knot the last
`fp`-value is returned (numpy's right clamp). -/
def interpSeg (x : ℚ) : ℚ × ℚ → List (ℚ × ℚ) → ℚ
  | (_, y0), [] => y0
  | (x0, y0), (x1, y1) :: rest =>
      if x < x1 then y0 + (y1 - y0) * (x - x0) / (x1 - x0)
      else interpSeg x (x1, y1) rest

/-- Model of `np.interp x xp fp` with the knots given as a list of pairs:
left of the first knot clamps to the first `fp`-value. -/
def npInterp (x : ℚ) (pts : List (ℚ × ℚ)) : ℚ :=
  match pts with
  | [] => 0
  | (x0, y0) :: rest => if x < x0 then y0 else interpSeg x (x0, y0) rest

/-- The literal anchor list of the source call
`np.interp(x=area, xp=[0, 5 ** -10, 4 ** -10, 3 ** -10, 2 ** -10, 1 ** -10, 1 ** -5],
fp=[20, 15, 14, 13, 11, 6, 4])`.  Note `1 ** -10 = 1 ** -5 = 1`: the last
two x-values coincide. -/
def anchorPts : List (ℚ × ℚ) :=
  [(0, 20), ((5 : ℚ) ^ (-10 : ℤ), 15), ((4 : ℚ) ^ (-10 : ℤ), 14),
   ((3 : ℚ) ^ (-10 : ℤ), 13), ((2 : ℚ) ^ (-10 : ℤ), 11),
   ((1 : ℚ) ^ (-10 : ℤ), 6), ((1 : ℚ) ^ (-5 : ℤ), 4)]

/-- Result of the estimator.  The degenerate branch of the source returns
the 2-tuple `(0, (0, 0))` (a zoom and a nested center pair), the normal
branch returns the 3-tuple `(zoom, center_lat, center_lon)`; the two are
values of different shapes, modelled as distinct constructors.  The
components of the normal branch are `Option ℚ` because on empty input
they are NaN. -/
inductive ZoomResult where
  | pair (zoom : ℚ) (center : ℚ × ℚ)
  | triple (zoom centerLat centerLon : Option ℚ)
  deriving DecidableEq

/-- Bounding-box height `latitudes.max() - latitudes.min()`. -/
def bboxHeight (lats : List ℚ) : Option ℚ := nanSub (seriesMax lats) (seriesMin lats)

/-- Bounding-box width `longitudes.max() - longitudes.min()`. -/
def bboxWidth (lons : List ℚ) : Option ℚ := nanSub (seriesMax lons) (seriesMin lons)

/-- The area `b_box['height'] * b_box['width']` of the source. -/
def bboxArea (lats lons : List ℚ) : Option ℚ := nanMul (bboxHeight lats) (bboxWidth lons)

/-- The source function: `None` check on either argument (latitudes checked
first, as in the source), then the length-mismatch check, both returning
`(0, (0, 0))`; otherwise bounding box, area and `np.interp` over the
literal anchors. -/
def get_plotting_zoom_level_and_center_coordinates_from_lonlat_tuples
    (longitudes latitudes : Option (List ℚ)) : ZoomResult :=
  match latitudes, longitudes with
  | none, _ => .pair 0 (0, 0)
  | some _, none => .pair 0 (0, 0)
  | some lats, some lons =>
    if lats.length ≠ lons.length then .pair 0 (0, 0)
    else
      .triple ((bboxArea lats lons).map (fun a => npInterp a anchorPts))
        (npMean lats) (npMean lons)

/-- The spec's name (`estimate(latitudes, longitudes)`, §4.1) for the
source function, with the spec's argument order. -/
def estimate (latitudes longitudes : Option (List ℚ)) : ZoomResult :=
  get_plotting_zoom_level_and_center_coordinates_from_lonlat_tuples longitudes latitudes

/-- Modelled from the spec, §4.1 step 4: piecewise-linear interpolation over
the anchor pairs `(0, 20), (5^-10, 15), (4^-10, 14), (3^-10, 13),
(2^-10, 11), (1^-10, 6), (1^-5, 4)`, clamped to 20 below the smallest
anchor x and to 4 from the largest anchor x on (the last two anchor
x-values both equal 1, so the value at exactly 1 is the last y, 4). -/
def specZoom (a : ℚ) : ℚ :=
  if a < 0 then 20
  else if a < (5 : ℚ) ^ (-10 : ℤ) then
    20 + (15 - 20) * (a - 0) / ((5 : ℚ) ^ (-10 : ℤ) - 0)
  else if a < (4 : ℚ) ^ (-10 : ℤ) then
    15 + (14 - 15) * (a - (5 : ℚ) ^ (-10 : ℤ)) / ((4 : ℚ) ^ (-10 : ℤ) - (5 : ℚ) ^ (-10 : ℤ))
  else if a < (3 : ℚ) ^ (-10 : ℤ) then
    14 + (13 - 14) * (a - (4 : ℚ) ^ (-10 : ℤ)) / ((3 : ℚ) ^ (-10 : ℤ) - (4 : ℚ) ^ (-10 : ℤ))
  else if a < (2 : ℚ) ^ (-10 : ℤ) then
    13 + (11 - 13) * (a - (3 : ℚ) ^ (-10 : ℤ)) / ((2 : ℚ) ^ (-10 : ℤ) - (3 : ℚ) ^ (-10 : ℤ))
  else if a < 1 then
    11 + (6 - 11) * (a - (2 : ℚ) ^ (-10 : ℤ)) / (1 - (2 : ℚ) ^ (-10 : ℤ))
  else 4

/-- The partial three-way unpacking `zoom, lat, lon = ...` performed by the
caller `serve_layout`: it succeeds exactly on the 3-tuple shape. -/
def unpack3 : ZoomResult → Option (Option ℚ × Option ℚ × Option ℚ)
  | .pair _ _ => none
  | .triple z c d => some (z, c, d)

end RibbitDashboard

namespace RibbitDashboard

/-! ### Properties of the interpolation -/

theorem npInterp_anchorPts (a : ℚ) : npInterp a anchorPts = specZoom a := by
  simp only [npInterp, anchorPts, interpSeg, specZoom]
  norm_num
  split_ifs <;> rfl

/-- Normalized closed form of `specZoom`: each segment written with an
explicit rational slope. -/
theorem specZoom_eq (a : ℚ) : specZoom a =
    if a < 0 then 20
    else if a < 1/9765625 then 20 - 48828125 * a
    else if a < 1/1048576 then 15 - (10240000000000/8717049) * (a - 1/9765625)
    else if a < 1/59049 then 14 - (61917364224/989527) * (a - 1/1048576)
    else if a < 1/1024 then 13 - (120932352/58025) * (a - 1/59049)
    else if a < 1 then 11 - (5120/1023) * (a - 1/1024)
    else 4 := by
  have h5 : (5:ℚ) ^ (-10:ℤ) = 1/9765625 := by norm_num
  have h4 : (4:ℚ) ^ (-10:ℤ) = 1/1048576 := by norm_num
  have h3 : (3:ℚ) ^ (-10:ℤ) = 1/59049 := by norm_num
  have h2 : (2:ℚ) ^ (-10:ℤ) = 1/1024 := by norm_num
  simp only [specZoom, h5, h4, h3, h2]
  split_ifs <;> (try rfl) <;> (field_simp; ring)

set_option maxHeartbeats 1600000 in
theorem specZoom_anti {a b : ℚ} (h : a ≤ b) : specZoom b ≤ specZoom a := by
  rw [specZoom_eq a, specZoom_eq b]
  split_ifs <;> linarith

set_option maxHeartbeats 800000 in
theorem specZoom_bounds (a : ℚ) : 4 ≤ specZoom a ∧ specZoom a ≤ 20 := by
  rw [specZoom_eq a]
  split_ifs <;> constructor <;> linarith

theorem specZoom_of_one_lt {a : ℚ} (h : 1 < a) : specZoom a = 4 := by
  rw [specZoom_eq]
  split_ifs <;> first | rfl | linarith

theorem specZoom_zero : specZoom 0 = 20 := by
  rw [specZoom_eq]
  norm_num

/-! ### Properties of the list reductions -/

theorem le_foldl_max (x : ℚ) (xs : List ℚ) : x ≤ List.foldl max x xs := by
  induction xs generalizing x with
  | nil => exact le_refl x
  | cons y ys ih => exact le_trans (le_max_left x y) (ih (max x y))

theorem foldl_min_le (x : ℚ) (xs : List ℚ) : List.foldl min x xs ≤ x := by
  induction xs generalizing x with
  | nil => exact le_refl x
  | cons y ys ih => exact le_trans (ih (min x y)) (min_le_left x y)

theorem listMin_le_listMax {l : List ℚ} (h : l ≠ []) : listMin l ≤ listMax l := by
  obtain ⟨x, xs, rfl⟩ := List.exists_cons_of_ne_nil h
  exact le_trans (foldl_min_le x xs) (le_foldl_max x xs)

theorem foldl_max_const {p x : ℚ} {xs : List ℚ} (hx : x = p) (h : ∀ y ∈ xs, y = p) :
    List.foldl max x xs = p := by
  induction xs generalizing x with
  | nil => exact hx
  | cons y ys ih =>
      have hy : y = p := h y (List.mem_cons_self y ys)
      exact ih (by rw [hx, hy, max_self]) (fun z hz => h z (List.mem_cons_of_mem y hz))

theorem foldl_min_const {p x : ℚ} {xs : List ℚ} (hx : x = p) (h : ∀ y ∈ xs, y = p) :
    List.foldl min x xs = p := by
  induction xs generalizing x with
  | nil => exact hx
  | cons y ys ih =>
      have hy : y = p := h y (List.mem_cons_self y ys)
      exact ih (by rw [hx, hy, min_self]) (fun z hz => h z (List.mem_cons_of_mem y hz))

theorem listMax_const {p : ℚ} {l : List ℚ} (hne : l ≠ []) (h : ∀ x ∈ l, x = p) :
    listMax l = p := by
  obtain ⟨x, xs, rfl⟩ := List.exists_cons_of_ne_nil hne
  exact foldl_max_const (h x (List.mem_cons_self x xs))
    (fun z hz => h z (List.mem_cons_of_mem x hz))

theorem listMin_const {p : ℚ} {l : List ℚ} (hne : l ≠ []) (h : ∀ x ∈ l, x = p) :
    listMin l = p := by
  obtain ⟨x, xs, rfl⟩ := List.exists_cons_of_ne_nil hne
  exact foldl_min_const (h x (List.mem_cons_self x xs))
    (fun z hz => h z (List.mem_cons_of_mem x hz))

theorem sum_const_list {p : ℚ} {l : List ℚ} (h : ∀ y ∈ l, y = p) :
    l.sum = l.length * p := by
  induction l with
  | nil => simp
  | cons y ys ih =>
      have hy : y = p := h y (List.mem_cons_self y ys)
      have := ih (fun z hz => h z (List.mem_cons_of_mem y hz))
      simp [hy, this]
      ring

theorem npMean_const {p : ℚ} {l : List ℚ} (hne : l ≠ []) (h : ∀ y ∈ l, y = p) :
    npMean l = some p := by
  have hlen : (l.length : ℚ) ≠ 0 := by
    exact_mod_cast fun h0 => hne (List.length_eq_zero.mp h0)
  have hcancel : (l.length : ℚ) * p / l.length = p := mul_div_cancel_left₀ p hlen
  simp [npMean, List.isEmpty_iff, hne, sum_const_list h, hcancel]

/-! ### Unfolding the estimator -/

theorem bboxArea_eq {la lo : List ℚ} (hla : la ≠ []) (hlo : lo ≠ []) :
    bboxArea la lo =
      some ((listMax la - listMin la) * (listMax lo - listMin lo)) := by
  obtain ⟨x, xs, rfl⟩ := List.exists_cons_of_ne_nil hla
  obtain ⟨y, ys, rfl⟩ := List.exists_cons_of_ne_nil hlo
  rfl

theorem estimator_normal {la lo : List ℚ} (hlen : la.length = lo.length) :
    get_plotting_zoom_level_and_center_coordinates_from_lonlat_tuples (some lo) (some la) =
      ZoomResult.triple ((bboxArea la lo).map (fun a => npInterp a anchorPts))
        (npMean la) (npMean lo) := by
  simp [get_plotting_zoom_level_and_center_coordinates_from_lonlat_tuples, hlen]

end RibbitDashboard

namespace RibbitDashboard

/-! ### The claims -/

/-- C1: for every non-`None` pair of equal-length, non-empty sequences, the
returned zoom is exactly the piecewise-linear interpolation (`specZoom`,
modelled from the spec's anchor table and interpolation rule, including
the clamps and the behaviour at area exactly 1) of the bounding-box area
`(max lat - min lat) * (max lon - min lon)`, alongside the mean centers. -/
theorem C1_zoom_is_piecewise_interpolation (la lo : List ℚ) (hla : la ≠ [])
    (hlo : lo ≠ []) (hlen : la.length = lo.length) :
    get_plotting_zoom_level_and_center_coordinates_from_lonlat_tuples (some lo) (some la) =
      ZoomResult.triple
        (some (specZoom ((listMax la - listMin la) * (listMax lo - listMin lo))))
        (npMean la) (npMean lo) := by
  rw [estimator_normal hlen, bboxArea_eq hla hlo]
  simp [npInterp_anchorPts]

/-- Witness for C1 at latitudes `[1, 3]`, longitudes `[2, 2]`. -/
theorem C1_witness :
    get_plotting_zoom_level_and_center_coordinates_from_lonlat_tuples
        (some [2, 2]) (some [1, 3]) =
      ZoomResult.triple
        (some (specZoom ((listMax [1, 3] - listMin [1, 3]) *
          (listMax [2, 2] - listMin [2, 2]))))
        (npMean [1, 3]) (npMean [2, 2]) :=
  C1_zoom_is_piecewise_interpolation [1, 3] [2, 2]
    (List.cons_ne_nil 1 [3]) (List.cons_ne_nil 2 [2]) rfl

/-- C2: whenever either sequence is `None` or the two lengths differ, the
function returns the fixed default `(0, (0, 0))` (and, being a total
function of the model, raises nothing). -/
theorem C2_malformed_input_gives_default (longitudes latitudes : Option (List ℚ))
    (h : latitudes = none ∨ longitudes = none ∨
      ∃ la lo, latitudes = some la ∧ longitudes = some lo ∧ la.length ≠ lo.length) :
    get_plotting_zoom_level_and_center_coordinates_from_lonlat_tuples longitudes latitudes =
      ZoomResult.pair 0 (0, 0) := by
  rcases h with h | h | ⟨la, lo, hla, hlo, hne⟩
  · subst h; rfl
  · subst h; cases latitudes <;> rfl
  · subst hla; subst hlo
    simp [get_plotting_zoom_level_and_center_coordinates_from_lonlat_tuples, hne]

/-- Witness for C2: the spec's example `estimate([1,2,3], [1,2])`
(mismatched lengths). -/
theorem C2_witness :
    estimate (some [1, 2, 3]) (some [1, 2]) = ZoomResult.pair 0 (0, 0) :=
  C2_malformed_input_gives_default (some [1, 2]) (some [1, 2, 3])
    (Or.inr (Or.inr ⟨[1, 2, 3], [1, 2], rfl, rfl, by simp⟩))

/-- C3 counterexample: on two empty sequences the function does not return
the degenerate default `(0, (0, 0))` claimed. -/
theorem C3_counterexample :
    get_plotting_zoom_level_and_center_coordinates_from_lonlat_tuples
      (some ([] : List ℚ)) (some ([] : List ℚ)) ≠ ZoomResult.pair 0 (0, 0) := by
  simp [get_plotting_zoom_level_and_center_coordinates_from_lonlat_tuples]

/-- C3 (amended): on two empty (equal-length) sequences the function does
not throw; it takes the normal branch and returns the 3-tuple whose zoom
and center components are all NaN (`none`), because max/min/mean of an
empty series are NaN. -/
theorem C3_empty_input_gives_nan_triple :
    get_plotting_zoom_level_and_center_coordinates_from_lonlat_tuples
      (some ([] : List ℚ)) (some ([] : List ℚ)) = ZoomResult.triple none none none := rfl

/-- C4: the area-to-zoom mapping is monotonically decreasing: across any two
valid non-empty inputs, a smaller-or-equal bounding-box area yields a
greater-or-equal zoom. -/
theorem C4_zoom_antitone_in_area (la1 lo1 la2 lo2 : List ℚ) (a1 a2 : ℚ)
    (hlen1 : la1.length = lo1.length) (hlen2 : la2.length = lo2.length)
    (ha1 : bboxArea la1 lo1 = some a1) (ha2 : bboxArea la2 lo2 = some a2)
    (hle : a1 ≤ a2) :
    ∃ z1 z2 c1 d1 c2 d2,
      get_plotting_zoom_level_and_center_coordinates_from_lonlat_tuples
        (some lo1) (some la1) = ZoomResult.triple (some z1) c1 d1 ∧
      get_plotting_zoom_level_and_center_coordinates_from_lonlat_tuples
        (some lo2) (some la2) = ZoomResult.triple (some z2) c2 d2 ∧
      z2 ≤ z1 := by
  refine ⟨npInterp a1 anchorPts, npInterp a2 anchorPts,
    npMean la1, npMean lo1, npMean la2, npMean lo2, ?_, ?_, ?_⟩
  · rw [estimator_normal hlen1, ha1]; rfl
  · rw [estimator_normal hlen2, ha2]; rfl
  · rw [npInterp_anchorPts, npInterp_anchorPts]
    exact specZoom_anti hle

/-- Witness for C4: one point (area 0) versus the spec's 10-degree square
(area 100). -/
theorem C4_witness :
    ∃ z1 z2 c1 d1 c2 d2,
      get_plotting_zoom_level_and_center_coordinates_from_lonlat_tuples
        (some [0]) (some [0]) = ZoomResult.triple (some z1) c1 d1 ∧
      get_plotting_zoom_level_and_center_coordinates_from_lonlat_tuples
        (some [0, 10]) (some [0, 10]) = ZoomResult.triple (some z2) c2 d2 ∧
      z2 ≤ z1 :=
  C4_zoom_antitone_in_area [0] [0] [0, 10] [0, 10] 0 100 rfl rfl
    (by norm_num [bboxArea, bboxHeight, bboxWidth, seriesMax, seriesMin, listMax,
      listMin, nanSub, nanMul])
    (by norm_num [bboxArea, bboxHeight, bboxWidth, seriesMax, seriesMin, listMax,
      listMin, nanSub, nanMul])
    (by norm_num)

/-- C5: for every non-`None` pair of equal-length, non-empty sequences, the
returned center is exactly (mean of latitudes, mean of longitudes). -/
theorem C5_center_is_arithmetic_mean (la lo : List ℚ) (hla : la ≠ []) (hlo : lo ≠ [])
    (hlen : la.length = lo.length) :
    ∃ z, get_plotting_zoom_level_and_center_coordinates_from_lonlat_tuples
        (some lo) (some la) =
      ZoomResult.triple z (some (la.sum / la.length)) (some (lo.sum / lo.length)) := by
  refine ⟨(bboxArea la lo).map (fun a => npInterp a anchorPts), ?_⟩
  rw [estimator_normal hlen]
  simp [npMean, List.isEmpty_iff, hla, hlo]

/-- Witness for C5 at latitudes `[1, 2]`, longitudes `[3, 5]`: the center is
`(3/2, 4)`, the means (and not the bounding-box midpoint in the first
component, which would also be 3/2 here, but is 4 = (3+5)/2 in the second
against any other distribution). -/
theorem C5_witness : ∃ z,
    get_plotting_zoom_level_and_center_coordinates_from_lonlat_tuples
        (some [3, 5]) (some [1, 2]) =
      ZoomResult.triple z (some (3/2)) (some 4) := by
  have h := C5_center_is_arithmetic_mean [1, 2] [3, 5]
    (List.cons_ne_nil 1 [2]) (List.cons_ne_nil 3 [5]) rfl
  norm_num at h
  exact h

/-- C6: when all latitudes coincide at `p` and all longitudes at `q` (zero
bounding-box area) the function returns maximum zoom 20 and center
`(p, q)`. -/
theorem C6_coincident_points_give_max_zoom (la lo : List ℚ) (p q : ℚ) (hla : la ≠ [])
    (hlen : la.length = lo.length) (hp : ∀ x ∈ la, x = p) (hq : ∀ y ∈ lo, y = q) :
    get_plotting_zoom_level_and_center_coordinates_from_lonlat_tuples
        (some lo) (some la) = ZoomResult.triple (some 20) (some p) (some q) := by
  have hlo : lo ≠ [] := by
    intro h0
    rw [h0] at hlen
    exact hla (List.length_eq_zero.mp hlen)
  rw [estimator_normal hlen, bboxArea_eq hla hlo,
    listMax_const hla hp, listMin_const hla hp,
    listMax_const hlo hq, listMin_const hlo hq,
    npMean_const hla hp, npMean_const hlo hq]
  simp [npInterp_anchorPts, specZoom_zero]

/-- Witness for C6: the spec's example `estimate([10,10],[20,20])`, giving
zoom 20 and center `(10, 20)`. -/
theorem C6_witness :
    estimate (some [10, 10]) (some [20, 20]) =
      ZoomResult.triple (some 20) (some 10) (some 20) :=
  C6_coincident_points_give_max_zoom [10, 10] [20, 20] 10 20
    (List.cons_ne_nil 10 [10]) rfl (by simp) (by simp)

/-- C7: when the bounding-box area exceeds the largest anchor x-value 1
(`= 1^-5`), the zoom clamps to 4 and the centers are the means. -/
theorem C7_large_area_clamps_to_four (la lo : List ℚ) (a : ℚ)
    (hlen : la.length = lo.length) (ha : bboxArea la lo = some a) (hgt : 1 < a) :
    get_plotting_zoom_level_and_center_coordinates_from_lonlat_tuples
        (some lo) (some la) =
      ZoomResult.triple (some 4) (npMean la) (npMean lo) := by
  rw [estimator_normal hlen, ha]
  simp [npInterp_anchorPts, specZoom_of_one_lt hgt]

/-- Witness for C7: the spec's example `estimate([0,10],[0,10])` has area
100 and returns zoom 4 with center `(5, 5)`. -/
theorem C7_witness :
    bboxArea [0, 10] [0, 10] = some 100 ∧
    estimate (some [0, 10]) (some [0, 10]) =
      ZoomResult.triple (some 4) (some 5) (some 5) := by
  have harea : bboxArea [0, 10] [0, 10] = some 100 := by
    norm_num [bboxArea, bboxHeight, bboxWidth, seriesMax, seriesMin, listMax, listMin,
      nanSub, nanMul]
  refine ⟨harea, ?_⟩
  have h := C7_large_area_clamps_to_four [0, 10] [0, 10] 100 rfl harea (by norm_num)
  rw [show estimate (some [0, 10]) (some [0, 10]) =
    get_plotting_zoom_level_and_center_coordinates_from_lonlat_tuples
      (some [0, 10]) (some [0, 10]) from rfl, h]
  norm_num [npMean]

/-- C8: the estimator is deterministic: two invocations with equal
arguments return equal results (the model is a pure function, mirroring
the source body, which reads its arguments and locals only and touches no
outer state). -/
theorem C8_deterministic (longitudes latitudes longitudes2 latitudes2 : Option (List ℚ))
    (h1 : longitudes = longitudes2) (h2 : latitudes = latitudes2) :
    get_plotting_zoom_level_and_center_coordinates_from_lonlat_tuples
        longitudes latitudes =
      get_plotting_zoom_level_and_center_coordinates_from_lonlat_tuples
        longitudes2 latitudes2 := by
  rw [h1, h2]

/-- Witness for C8 at a concrete repeated invocation. -/
theorem C8_witness :
    get_plotting_zoom_level_and_center_coordinates_from_lonlat_tuples
        (some [1]) (some [2]) =
      get_plotting_zoom_level_and_center_coordinates_from_lonlat_tuples
        (some [1]) (some [2]) :=
  C8_deterministic (some [1]) (some [2]) (some [1]) (some [2]) rfl rfl

/-- C9: the caller's three-way unpacking (`unpack3`) succeeds exactly on
non-`None`, equal-length inputs (the normal branch returns a 3-tuple),
and whenever it fails the result is the 2-tuple `(0, (0, 0))` of the
degenerate branch. -/
theorem C9_unpacking_succeeds_iff_valid (longitudes latitudes : Option (List ℚ)) :
    ((unpack3 (get_plotting_zoom_level_and_center_coordinates_from_lonlat_tuples
        longitudes latitudes)).isSome = true ↔
      ∃ la lo, latitudes = some la ∧ longitudes = some lo ∧ la.length = lo.length) ∧
    (unpack3 (get_plotting_zoom_level_and_center_coordinates_from_lonlat_tuples
        longitudes latitudes) = none →
      get_plotting_zoom_level_and_center_coordinates_from_lonlat_tuples
        longitudes latitudes = ZoomResult.pair 0 (0, 0)) := by
  cases latitudes with
  | none =>
      simp [get_plotting_zoom_level_and_center_coordinates_from_lonlat_tuples, unpack3]
  | some la =>
      cases longitudes with
      | none =>
          simp [get_plotting_zoom_level_and_center_coordinates_from_lonlat_tuples,
            unpack3]
      | some lo =>
          by_cases h : la.length = lo.length <;>
            simp [get_plotting_zoom_level_and_center_coordinates_from_lonlat_tuples,
              unpack3, h]

/-- Witness for C9: unpacking succeeds on a valid one-point input. -/
theorem C9_witness :
    (unpack3 (get_plotting_zoom_level_and_center_coordinates_from_lonlat_tuples
      (some [1]) (some [2]))).isSome = true :=
  (C9_unpacking_succeeds_iff_valid (some [1]) (some [2])).1.mpr ⟨[2], [1], rfl, rfl, rfl⟩

/-- C10: for every non-`None` pair of equal-length, non-empty sequences the
bounding-box area is non-negative and the returned zoom lies in
`[4, 20]`. -/
theorem C10_zoom_between_four_and_twenty (la lo : List ℚ) (hla : la ≠ [])
    (hlen : la.length = lo.length) :
    ∃ a z c d, bboxArea la lo = some a ∧ 0 ≤ a ∧
      get_plotting_zoom_level_and_center_coordinates_from_lonlat_tuples
        (some lo) (some la) = ZoomResult.triple (some z) c d ∧
      4 ≤ z ∧ z ≤ 20 := by
  have hlo : lo ≠ [] := by
    intro h0
    rw [h0] at hlen
    exact hla (List.length_eq_zero.mp hlen)
  refine ⟨(listMax la - listMin la) * (listMax lo - listMin lo),
    specZoom ((listMax la - listMin la) * (listMax lo - listMin lo)),
    npMean la, npMean lo, bboxArea_eq hla hlo,
    mul_nonneg (sub_nonneg.mpr (listMin_le_listMax hla))
      (sub_nonneg.mpr (listMin_le_listMax hlo)),
    ?_, (specZoom_bounds _).1, (specZoom_bounds _).2⟩
  rw [estimator_normal hlen, bboxArea_eq hla hlo]
  simp [npInterp_anchorPts]

/-- Witness for C10 at latitudes `[1, 2]`, longitudes `[3, 4]`. -/
theorem C10_witness :
    ∃ a z c d, bboxArea [1, 2] [3, 4] = some a ∧ 0 ≤ a ∧
      get_plotting_zoom_level_and_center_coordinates_from_lonlat_tuples
        (some [3, 4]) (some [1, 2]) = ZoomResult.triple (some z) c d ∧
      4 ≤ z ∧ z ≤ 20 :=
  C10_zoom_between_four_and_twenty [1, 2] [3, 4] (List.cons_ne_nil 1 [2]) rfl

end RibbitDashboard
